import Mathlib

/-!
Shallow embedding of the RouteX bot broadcast engine
(`src/routex_bot/db.py`, `src/routex_bot/services/broadcast.py`,
`src/routex_bot/services/scheduler.py`).

Timestamps are modelled as integers (seconds). The SQLite tables become
lists of records inside a `DBState`; each `Database` method becomes a pure
function over that state. The Telegram transport is modelled by an oracle
`send : Nat → SendResult` indexed by the number of transport calls made so
far in a run, and the executor additionally records an event trace so that
ordering properties (enqueue before send, sleeps, terminal transitions)
can be stated.
-/

namespace Routex

/-- Row of the `users` table (db.py `init_models`). `username`, `key` and
`last_activity_at` are nullable columns. -/
structure User where
  id : Nat
  tg_id : Nat
  username : Option String
  key : Option String
  is_subscribed : Bool
  is_donor : Bool
  last_activity_at : Option Int
  deriving DecidableEq, Repr

/-- Delivery status, the CHECK constraint of the `deliveries` table:
status IN ('queued','sent','failed'). -/
inductive DStatus where
  | queued
  | sent
  | failed
  deriving DecidableEq, Repr

/-- Row of the `deliveries` table. `schedule_id` is nullable (ON DELETE SET
NULL and ad-hoc broadcasts), `error` and `sent_at` are nullable. -/
structure Delivery where
  id : Nat
  schedule_id : Option Nat
  user_id : Nat
  status : DStatus
  error : Option String
  sent_at : Option Int
  deriving DecidableEq, Repr

/-- The slice of database state the broadcast engine touches, together with
the AUTOINCREMENT counter for delivery ids. -/
structure DBState where
  users : List User
  deliveries : List Delivery
  nextDeliveryId : Nat
  deriving DecidableEq, Repr

/-- Segment descriptor: the Python dict `segment`, of which the code reads
`segment.get("type", "all_subscribed")` and `segment.get("where")`. -/
structure Segment where
  segType : Option String
  whereClause : Option String
  deriving DecidableEq, Repr

/-- Scan for two consecutive dashes. -/
def hasDashDash : List Char → Bool
  | [] => false
  | [_] => false
  | c1 :: c2 :: rest => (c1 == '-' && c2 == '-') || hasDashDash (c2 :: rest)

/-- Python truth test `"--" in where_clause`. -/
def containsDashDash (s : String) : Bool :=
  hasDashDash s.data

/-- Database.list_users_for_segment (db.py lines 264-289). The raw SQL
`where` fragment of a `custom_sql` segment is evaluated by SQLite; that
evaluation is abstracted as the predicate `evalWhere`. A `ValueError` is
modelled as `Except.error`. All non-`custom_sql` variants add the
`is_subscribed = 1` restriction; `no_key`, `inactive_30d` and `donors` add
their own condition, every other tag (including a missing `type` key,
which defaults to `"all_subscribed"`) falls through to the default. -/
def list_users_for_segment (now : Int) (evalWhere : String → User → Bool)
    (users : List User) (seg : Segment) : Except String (List User) :=
  let seg_type := seg.segType.getD "all_subscribed"
  if seg_type == "custom_sql" then
    match seg.whereClause with
    | none => .error "Некорректный custom_sql сегмент"
    | some w =>
        if w == "" || containsDashDash w then
          .error "Некорректный custom_sql сегмент"
        else
          .ok (users.filter fun u => evalWhere w u)
  else
    let base := users.filter fun u => u.is_subscribed
    if seg_type == "no_key" then
      .ok (base.filter fun u => u.key == none)
    else if seg_type == "inactive_30d" then
      .ok (base.filter fun u =>
        match u.last_activity_at with
        | none => true
        | some t => t < now - 30 * 86400)
    else if seg_type == "donors" then
      .ok (base.filter fun u => u.is_donor)
    else
      .ok base

/-- Database.has_recent_delivery (db.py lines 238-250): SELECT rows with
the given schedule and user whose `sent_at` is within the last
`within_hours` hours; a NULL `sent_at` never satisfies the SQL
comparison. -/
def has_recent_delivery (now : Int) (deliveries : List Delivery)
    (schedule_id : Nat) (user_id : Nat) (within_hours : Nat := 24) : Bool :=
  deliveries.any fun d =>
    d.schedule_id == some schedule_id && d.user_id == user_id &&
      (match d.sent_at with
       | some t => decide (now - (within_hours : Int) * 3600 ≤ t)
       | none => false)

/-- Database.enqueue_delivery (db.py lines 225-236): INSERT a delivery row,
status defaulting to `queued`, `error` and `sent_at` NULL; returns the new
row id (the AUTOINCREMENT counter). -/
def enqueue_delivery (db : DBState) (schedule_id : Option Nat)
    (user_id : Nat) (status : DStatus := .queued) : DBState :=
  { db with
    deliveries := db.deliveries ++
      [⟨db.nextDeliveryId, schedule_id, user_id, status, none, none⟩],
    nextDeliveryId := db.nextDeliveryId + 1 }

/-- The per-row effect of Database.update_delivery: rows with the matching
id get the new status and error, and `sent_at = CURRENT_TIMESTAMP`
regardless of the status being written. -/
def updRow (now : Int) (delivery_id : Nat) (status : DStatus)
    (error : Option String) (d : Delivery) : Delivery :=
  if d.id == delivery_id then
    { d with status := status, error := error, sent_at := some now }
  else d

/-- Database.update_delivery (db.py lines 252-262). -/
def update_delivery (now : Int) (db : DBState) (delivery_id : Nat)
    (status : DStatus) (error : Option String) : DBState :=
  { db with deliveries := db.deliveries.map (updRow now delivery_id status error) }

/-- Database.update_subscription (db.py lines 149-154): set `is_subscribed`
and touch `last_activity_at` for users with the given tg_id. -/
def update_subscription (now : Int) (db : DBState) (tg : Nat)
    (subscribed : Bool) : DBState :=
  { db with users := db.users.map fun u =>
      if u.tg_id == tg then
        { u with is_subscribed := subscribed, last_activity_at := some now }
      else u }

/-- Database.touch_activity (db.py lines 163-168). -/
def touch_activity (now : Int) (db : DBState) (tg : Nat) : DBState :=
  { db with users := db.users.map fun u =>
      if u.tg_id == tg then { u with last_activity_at := some now } else u }

/-- The opening brace character, written by code point to keep formatting
clear of the template syntax it manipulates. -/
def lbrace : Char := Char.ofNat 123

/-- The closing brace character. -/
def rbrace : Char := Char.ofNat 125

/-- Scanner mode for the format interpreter: plain text, or inside a
replacement field with the name characters collected so far (reversed). -/
inductive FmtMode where
  | text
  | field (acc : List Char)
  deriving DecidableEq, Repr

/-- Core of Python `template.format(**placeholders)` restricted to simple
named replacement fields: `\x7b\x7b` and `\x7d\x7d` are literal braces, a
field `\x7bname\x7d` is replaced by its binding in `env`; a name missing
from `env` (KeyError) and malformed brace syntax — a lone brace or an
unclosed field (ValueError) — both yield `none`, exactly the two
exception classes `_render_text` catches. -/
def pyFormatGo (env : List (String × String)) : FmtMode → List Char → Option (List Char)
  | .text, [] => some []
  | .text, c :: cs =>
      if c = lbrace then
        match cs with
        | [] => none
        | c2 :: cs2 =>
            if c2 = lbrace then (pyFormatGo env .text cs2).map (lbrace :: ·)
            else pyFormatGo env (.field []) (c2 :: cs2)
      else if c = rbrace then
        match cs with
        | [] => none
        | c2 :: cs2 =>
            if c2 = rbrace then (pyFormatGo env .text cs2).map (rbrace :: ·)
            else none
      else
        (pyFormatGo env .text cs).map (c :: ·)
  | .field _, [] => none
  | .field acc, c :: cs =>
      if c = rbrace then
        match env.lookup (String.mk acc.reverse) with
        | none => none
        | some v => (pyFormatGo env .text cs).map (v.data ++ ·)
      else
        pyFormatGo env (.field (c :: acc)) cs

/-- Entry point of the format interpreter. -/
def pyFormat (cs : List Char) (env : List (String × String)) : Option (List Char) :=
  pyFormatGo env .text cs

/-- Display name: Python `user["username"] or f"друг RouteX #\x7buser['tg_id']\x7d"`;
`or` falls through on None and on the empty string. -/
def usernameValue (u : User) : String :=
  match u.username with
  | some s => if s == "" then "друг RouteX #" ++ toString u.tg_id else s
  | none => "друг RouteX #" ++ toString u.tg_id

/-- Key text: Python `user["key"] or "—"`. -/
def keyValue (u : User) : String :=
  match u.key with
  | some s => if s == "" then "—" else s
  | none => "—"

/-- BroadcastService._render_text (broadcast.py lines 122-131): substitute
the `username` and `key` placeholders; on KeyError or ValueError return the
raw template unchanged. -/
def render_text (template : String) (u : User) : String :=
  match pyFormat template.data [("username", usernameValue u), ("key", keyValue u)] with
  | some out => String.mk out
  | none => template

/-- Classified outcome of one transport call, after the `except` clauses of
`BroadcastService.broadcast`: TelegramRetryAfter carries the flood-wait
seconds; TelegramForbiddenError and TelegramNotFound are the permanent
recipient failures; TelegramBadRequest, TelegramAPIError and the
`Exception` safety net all behave identically (fail the delivery, keep the
subscription). -/
inductive SendResult where
  | ok
  | retryAfter (seconds : Nat)
  | permFail (err : String)
  | otherFail (err : String)
  deriving DecidableEq, Repr

/-- Observable step of a broadcast run, in execution order: delivery
insertion, a transport call, a delivery UPDATE, a flood-wait sleep, the
activity/subscription writes, and the inter-batch pacing pause. -/
inductive Event where
  | enqueue (delivery_id : Nat) (schedule_id : Option Nat) (user_id : Nat) (status : DStatus)
  | sendAttempt (tg : Nat) (text : String)
  | updateDelivery (delivery_id : Nat) (status : DStatus) (error : Option String)
  | sleep (seconds : Nat)
  | touchActivity (tg : Nat)
  | setSubscription (tg : Nat) (value : Bool)
  | pause
  deriving DecidableEq, Repr

/-- Running state of one `broadcast` invocation: the database, the number
of transport calls already made (the oracle index), the event trace, and
the three counters the method returns. -/
structure RunState where
  db : DBState
  calls : Nat
  events : List Event
  queued : Nat
  sent : Nat
  failed : Nat
  deriving DecidableEq, Repr

/-- Result of BroadcastService._retry_delivery. -/
structure RetryResult where
  db : DBState
  calls : Nat
  events : List Event
  success : Bool
  deriving DecidableEq, Repr

/-- BroadcastService._retry_delivery (broadcast.py lines 93-120), with the
loop counter `tries` replaced by the remaining budget `fuel = 3 - tries`.
Each iteration attempts a send: success updates the delivery to `sent` and
touches activity; rate-limiting sleeps and loops; a permanent failure
updates to `failed` and unsubscribes; other API errors update to `failed`;
an exhausted budget updates to `failed` with "Retry limit exceeded". -/
def retryLoop (now : Int) (send : Nat → SendResult) (u : User) (text : String)
    (delivery_id : Nat) : Nat → Nat → DBState → RetryResult
  | 0, calls, db =>
      ⟨update_delivery now db delivery_id .failed (some "Retry limit exceeded"),
       calls,
       [.updateDelivery delivery_id .failed (some "Retry limit exceeded")],
       false⟩
  | fuel + 1, calls, db =>
      match send calls with
      | .ok =>
          ⟨touch_activity now (update_delivery now db delivery_id .sent none) u.tg_id,
           calls + 1,
           [.sendAttempt u.tg_id text, .updateDelivery delivery_id .sent none,
            .touchActivity u.tg_id],
           true⟩
      | .retryAfter s =>
          let r := retryLoop now send u text delivery_id fuel (calls + 1) db
          ⟨r.db, r.calls, .sendAttempt u.tg_id text :: .sleep s :: r.events, r.success⟩
      | .permFail e =>
          ⟨update_subscription now
             (update_delivery now db delivery_id .failed (some e)) u.tg_id false,
           calls + 1,
           [.sendAttempt u.tg_id text, .updateDelivery delivery_id .failed (some e),
            .setSubscription u.tg_id false],
           false⟩
      | .otherFail e =>
          ⟨update_delivery now db delivery_id .failed (some e),
           calls + 1,
           [.sendAttempt u.tg_id text, .updateDelivery delivery_id .failed (some e)],
           false⟩

/-- The guard `if schedule_id and await self.db.has_recent_delivery(...)`
(broadcast.py line 61): Python truthiness of `schedule_id` is "not None
and nonzero". -/
def dedupSkip (now : Int) (db : DBState) (schedule_id : Option Nat)
    (user_id : Nat) : Bool :=
  match schedule_id with
  | none => false
  | some sid => sid != 0 && has_recent_delivery now db.deliveries sid user_id

/-- One iteration of the inner recipient loop of BroadcastService.broadcast
(broadcast.py lines 59-89): dedup check, enqueue, render, initial send and
outcome classification, delegating flood waits to `retryLoop` with a
budget of 3 attempts. -/
def processUser (now : Int) (send : Nat → SendResult) (text : String)
    (schedule_id : Option Nat) (st : RunState) (u : User) : RunState :=
  if dedupSkip now st.db schedule_id u.id then st
  else
    let delivery_id := st.db.nextDeliveryId
    let db1 := enqueue_delivery st.db schedule_id u.id
    let message_text := render_text text u
    let pre := st.events ++
      [.enqueue delivery_id schedule_id u.id .queued,
       .sendAttempt u.tg_id message_text]
    match send st.calls with
    | .ok =>
        { st with
          db := touch_activity now (update_delivery now db1 delivery_id .sent none) u.tg_id,
          calls := st.calls + 1,
          events := pre ++ [.updateDelivery delivery_id .sent none, .touchActivity u.tg_id],
          queued := st.queued + 1, sent := st.sent + 1 }
    | .retryAfter s =>
        let r := retryLoop now send u message_text delivery_id 3 (st.calls + 1) db1
        { st with
          db := r.db,
          calls := r.calls,
          events := pre ++ [.sleep s] ++ r.events,
          queued := st.queued + 1,
          sent := st.sent + (if r.success then 1 else 0),
          failed := st.failed + (if r.success then 0 else 1) }
    | .permFail e =>
        { st with
          db := update_subscription now
            (update_delivery now db1 delivery_id .failed (some e)) u.tg_id false,
          calls := st.calls + 1,
          events := pre ++ [.updateDelivery delivery_id .failed (some e),
            .setSubscription u.tg_id false],
          queued := st.queued + 1, failed := st.failed + 1 }
    | .otherFail e =>
        { st with
          db := update_delivery now db1 delivery_id .failed (some e),
          calls := st.calls + 1,
          events := pre ++ [.updateDelivery delivery_id .failed (some e)],
          queued := st.queued + 1, failed := st.failed + 1 }

/-- The recipients of one batch, processed strictly in order. -/
def processUsers (now : Int) (send : Nat → SendResult) (text : String)
    (schedule_id : Option Nat) (st : RunState) (batch : List User) : RunState :=
  batch.foldl (processUser now send text schedule_id) st

/-- One batch followed by the pacing delay `await asyncio.sleep(self.delay_seconds)`
(broadcast.py line 90), recorded as `Event.pause`. -/
def processBatch (now : Int) (send : Nat → SendResult) (text : String)
    (schedule_id : Option Nat) (st : RunState) (batch : List User) : RunState :=
  let st1 := processUsers now send text schedule_id st batch
  { st1 with events := st1.events ++ [.pause] }

/-- The chunking generator `chunked` (broadcast.py lines 20-28): greedily
fill chunks of `size` elements, a final partial chunk is yielded as is. -/
def chunkedGo (size : Nat) : List α → List α → List (List α)
  | [], chunk => if chunk.isEmpty then [] else [chunk]
  | x :: xs, chunk =>
      let chunk2 := chunk ++ [x]
      if size ≤ chunk2.length then chunk2 :: chunkedGo size xs []
      else chunkedGo size xs chunk2

/-- Entry point of the chunking generator. -/
def chunked (l : List α) (size : Nat) : List (List α) :=
  chunkedGo size l []

/-- BroadcastService.broadcast (broadcast.py lines 41-91). The constructor
clamps the batch size with `max(1, batch_size)`. Resolution happens first;
a resolver ValueError propagates (`Except.error`) before any state change;
an empty recipient list returns `(0, 0, 0)` immediately with no records
written; otherwise the batches run in order. -/
def broadcast (now : Int) (send : Nat → SendResult)
    (evalWhere : String → User → Bool) (batch_size : Nat) (db : DBState)
    (text : String) (segment : Segment) (schedule_id : Option Nat) :
    Except String RunState :=
  match list_users_for_segment now evalWhere db.users segment with
  | .error e => .error e
  | .ok recipients =>
      if recipients.isEmpty then .ok ⟨db, 0, [], 0, 0, 0⟩
      else
        .ok ((chunked recipients (max 1 batch_size)).foldl
          (processBatch now send text schedule_id) ⟨db, 0, [], 0, 0, 0⟩)

/-- Schedule row as the scheduler sees it (db.py `Schedule`), restricted to
the fields `_build_trigger` and `_add_job` read. -/
structure Schedule where
  id : Nat
  schedType : String
  spec : String
  deriving DecidableEq, Repr

/-- An APScheduler trigger as configured by this service: either a cron
trigger from the crontab string or an interval trigger from the JSON spec,
both in the engine's configured timezone. -/
inductive Trigger where
  | cron (spec : String) (tz : String)
  | interval (spec : String) (tz : String)
  deriving DecidableEq, Repr

/-- SchedulerService._build_trigger (scheduler.py lines 124-130): cron and
interval specs build the corresponding trigger in `self.timezone`; any
other type raises ValueError. -/
def build_trigger (tz : String) (s : Schedule) : Except String Trigger :=
  if s.schedType == "cron" then .ok (.cron s.spec tz)
  else if s.schedType == "interval" then .ok (.interval s.spec tz)
  else .error ("Unsupported schedule type " ++ s.schedType)

/-- SchedulerService._add_job (scheduler.py lines 66-83): build the trigger
first — a ValueError from `_build_trigger` propagates before
`scheduler.add_job` runs, so no timer is installed — then install the job
under id `schedule-<id>` with `replace_existing=True`. -/
def add_job (tz : String) (jobs : List (String × Trigger)) (s : Schedule) :
    Except String (List (String × Trigger)) :=
  match build_trigger tz s with
  | .error e => .error e
  | .ok trig =>
      let job_id := "schedule-" ++ toString s.id
      .ok ((jobs.filter fun j => j.1 != job_id) ++ [(job_id, trig)])

/-- Recognizer for delivery-insertion events. -/
def isEnq : Event → Bool
  | .enqueue _ _ _ _ => true
  | _ => false

/-- Recognizer for delivery UPDATE events. -/
def isUpd : Event → Bool
  | .updateDelivery _ _ _ => true
  | _ => false

/-- A delivery UPDATE with a fresh id leaves rows with other ids alone. -/
theorem map_updRow_of_fresh (now : Int) (delivery_id : Nat) (stt : DStatus)
    (err : Option String) (ds : List Delivery)
    (h : ∀ d ∈ ds, d.id ≠ delivery_id) :
    ds.map (updRow now delivery_id stt err) = ds := by
  induction ds with
  | nil => rfl
  | cons d ds ih =>
      have hd : d.id ≠ delivery_id := h d (by simp)
      have hrest : ∀ x ∈ ds, x.id ≠ delivery_id := fun x hx => h x (by simp [hx])
      simp [updRow, hd, ih hrest]

/-- Updating the freshly enqueued delivery touches exactly the new row. -/
theorem update_delivery_enqueue (now : Int) (db : DBState)
    (schedule_id : Option Nat) (uid : Nat) (stt : DStatus) (err : Option String)
    (h : ∀ d ∈ db.deliveries, d.id ≠ db.nextDeliveryId) :
    (update_delivery now (enqueue_delivery db schedule_id uid)
        db.nextDeliveryId stt err).deliveries =
      db.deliveries ++ [⟨db.nextDeliveryId, schedule_id, uid, stt, err, some now⟩] := by
  simp [update_delivery, enqueue_delivery, map_updRow_of_fresh now _ stt err _ h, updRow]

/-- C5: for every segment descriptor whose type tag is not one of the known
variants (all_subscribed, no_key, inactive_30d, donors, custom_sql) —
including a descriptor with no type field at all — `list_users_for_segment`
returns exactly what the `all_subscribed` variant returns (all users with
subscription flag true) and never raises an error. -/
theorem C5_unknown_segment_defaults_to_all_subscribed (now : Int)
    (evalWhere : String → User → Bool) (users : List User) (seg : Segment)
    (h : ∀ t, seg.segType = some t →
      (["all_subscribed", "no_key", "inactive_30d", "donors", "custom_sql"] :
        List String).contains t = false) :
    list_users_for_segment now evalWhere users seg =
        .ok (users.filter fun u => u.is_subscribed) ∧
    list_users_for_segment now evalWhere users seg =
      list_users_for_segment now evalWhere users ⟨some "all_subscribed", none⟩ := by
  cases hty : seg.segType with
  | none =>
      constructor
      · simp [list_users_for_segment, hty]
      · simp [list_users_for_segment, hty]
  | some t =>
      have ht := h t hty
      simp only [List.contains_cons, List.contains_nil, Bool.or_eq_false_iff,
        beq_eq_false_iff_ne, ne_eq] at ht
      obtain ⟨h1, h2, h3, h4, h5, _⟩ := ht
      constructor
      · simp [list_users_for_segment, hty, h1, h2, h3, h4, h5]
      · simp [list_users_for_segment, hty, h1, h2, h3, h4, h5]

/-- Witness for C5 at the concrete tag "typo". -/
theorem C5_unknown_segment_defaults_to_all_subscribed_witness :
    list_users_for_segment 0 (fun _ _ => false)
        [⟨1, 11, none, none, true, false, none⟩,
         ⟨2, 12, none, none, false, false, none⟩]
        ⟨some "typo", none⟩ =
      .ok [⟨1, 11, none, none, true, false, none⟩] := by
  have h := C5_unknown_segment_defaults_to_all_subscribed 0 (fun _ _ => false)
    [⟨1, 11, none, none, true, false, none⟩,
     ⟨2, 12, none, none, false, false, none⟩]
    ⟨some "typo", none⟩
    (by intro t ht; injection ht with h2; rw [← h2]; decide)
  rw [h.1]
  rfl

/-- C2: a `custom_sql` segment whose `where` fragment is missing, empty or
contains the comment-injection marker "--" makes `list_users_for_segment`
raise a validation error before any store query, and the whole `broadcast`
call propagates that error before any state change (no delivery row, no
send, no event); a fragment that passes the check resolves to exactly the
users matching the fragment, without the `is_subscribed = 1` restriction
every other variant gets. -/
theorem C2_custom_sql_validation (now : Int) (send : Nat → SendResult)
    (evalWhere : String → User → Bool) (batch_size : Nat) (db : DBState)
    (text : String) (schedule_id : Option Nat) (seg : Segment)
    (hty : seg.segType = some "custom_sql") :
    ((∀ s, seg.whereClause = some s → s = "" ∨ containsDashDash s = true) →
      list_users_for_segment now evalWhere db.users seg =
          .error "Некорректный custom_sql сегмент" ∧
      broadcast now send evalWhere batch_size db text seg schedule_id =
          .error "Некорректный custom_sql сегмент") ∧
    (∀ s, seg.whereClause = some s → s ≠ "" → containsDashDash s = false →
      list_users_for_segment now evalWhere db.users seg =
          .ok (db.users.filter fun u => evalWhere s u)) := by
  constructor
  · intro hbad
    cases hw : seg.whereClause with
    | none =>
        have hres : list_users_for_segment now evalWhere db.users seg =
            .error "Некорректный custom_sql сегмент" := by
          simp [list_users_for_segment, hty, hw]
        exact ⟨hres, by simp [broadcast, hres]⟩
    | some s =>
        have hres : list_users_for_segment now evalWhere db.users seg =
            .error "Некорректный custom_sql сегмент" := by
          rcases hbad s hw with hs | hs
          · simp [list_users_for_segment, hty, hw, hs]
          · simp [list_users_for_segment, hty, hw, hs]
        exact ⟨hres, by simp [broadcast, hres]⟩
  · intro s hw hne hdd
    simp [list_users_for_segment, hty, hw, hne, hdd]

/-- Witness for C2 at the fragment "is_donor = 1 --drop". -/
theorem C2_custom_sql_validation_witness :
    list_users_for_segment 0 (fun _ _ => true)
        ([] : List User) ⟨some "custom_sql", some "is_donor = 1 --drop"⟩ =
      .error "Некорректный custom_sql сегмент" := by
  have h := C2_custom_sql_validation 0 (fun _ => .ok) (fun _ _ => true) 1
    ⟨[], [], 1⟩ "hi" none ⟨some "custom_sql", some "is_donor = 1 --drop"⟩ rfl
  exact (h.1 (by intro s hs; injection hs with h2; rw [← h2]; right; decide)).1

/-- C10: `has_recent_delivery` returns true exactly when some delivery row
of the (schedule, recipient) pair carries a non-null `sent_at` inside the
24-hour window, independently of the row's status; a row whose `sent_at`
is NULL (still queued, never updated) never suppresses anything; and
since `update_delivery` stamps `sent_at` for failed rows too, a delivery
terminated as failed suppresses resends for the window. -/
theorem C10_recent_delivery_semantics (now : Int) (ds : List Delivery)
    (schedule_id user_id : Nat) :
    (has_recent_delivery now ds schedule_id user_id = true ↔
      ∃ d ∈ ds, d.schedule_id = some schedule_id ∧ d.user_id = user_id ∧
        ∃ t, d.sent_at = some t ∧ now - 24 * 3600 ≤ t) ∧
    (∀ d : Delivery, ∀ s1 s2 : DStatus,
      has_recent_delivery now [{ d with status := s1 }] schedule_id user_id =
      has_recent_delivery now [{ d with status := s2 }] schedule_id user_id) ∧
    (∀ db : DBState, ∀ delivery_id : Nat, ∀ err : Option String,
      (∃ d ∈ db.deliveries, d.id = delivery_id ∧
        d.schedule_id = some schedule_id ∧ d.user_id = user_id) →
      has_recent_delivery now
        (update_delivery now db delivery_id .failed err).deliveries
        schedule_id user_id = true) := by
  refine ⟨?_, ?_, ?_⟩
  · simp only [has_recent_delivery, List.any_eq_true]
    constructor
    · rintro ⟨d, hd, hcond⟩
      refine ⟨d, hd, ?_⟩
      cases hsent : d.sent_at with
      | none => rw [hsent] at hcond; simp at hcond
      | some t =>
          rw [hsent] at hcond
          simp only [Bool.and_eq_true, beq_iff_eq, decide_eq_true_eq] at hcond
          exact ⟨hcond.1.1, hcond.1.2, t, rfl, hcond.2⟩
    · rintro ⟨d, hd, hsid, huid, t, hsent, ht⟩
      refine ⟨d, hd, ?_⟩
      simp [hsid, huid, hsent]
      omega
  · intro d s1 s2
    simp [has_recent_delivery]
  · rintro db delivery_id err ⟨d, hd, hid, hsid, huid⟩
    simp only [has_recent_delivery, update_delivery, List.any_eq_true, List.mem_map]
    refine ⟨updRow now delivery_id .failed err d, ⟨d, hd, rfl⟩, ?_⟩
    simp [updRow, hid, hsid, huid]
    try omega

/-- Witness for C10: a failed delivery stamped by `update_delivery`
suppresses a resend. -/
theorem C10_recent_delivery_semantics_witness :
    has_recent_delivery 5000
        (update_delivery 5000 ⟨[], [⟨7, some 3, 4, .queued, none, none⟩], 8⟩
          7 .failed (some "boom")).deliveries 3 4 = true := by
  exact (C10_recent_delivery_semantics 5000
      [⟨7, some 3, 4, .queued, none, none⟩] 3 4).2.2
    ⟨[], [⟨7, some 3, 4, .queued, none, none⟩], 8⟩ 7 (some "boom")
    ⟨⟨7, some 3, 4, .queued, none, none⟩, by simp, rfl, rfl, rfl⟩

/-- C9: arming a schedule whose trigger kind is neither "cron" nor
"interval" raises a hard configuration error before any timer is
installed (`add_job` propagates the `_build_trigger` ValueError and the
job table is not extended); for the two supported kinds the trigger is
built from the stored spec in the engine's configured timezone. -/
theorem C9_unsupported_trigger_is_hard_error (tz : String)
    (jobs : List (String × Trigger)) (s : Schedule) :
    (s.schedType ≠ "cron" → s.schedType ≠ "interval" →
      build_trigger tz s = .error ("Unsupported schedule type " ++ s.schedType) ∧
      add_job tz jobs s = .error ("Unsupported schedule type " ++ s.schedType)) ∧
    (s.schedType = "cron" →
      add_job tz jobs s = .ok
        ((jobs.filter fun j => j.1 != "schedule-" ++ toString s.id) ++
          [("schedule-" ++ toString s.id, .cron s.spec tz)])) ∧
    (s.schedType = "interval" →
      add_job tz jobs s = .ok
        ((jobs.filter fun j => j.1 != "schedule-" ++ toString s.id) ++
          [("schedule-" ++ toString s.id, .interval s.spec tz)])) := by
  refine ⟨?_, ?_, ?_⟩
  · intro hc hi
    have hb : build_trigger tz s =
        .error ("Unsupported schedule type " ++ s.schedType) := by
      simp [build_trigger, hc, hi]
    exact ⟨hb, by simp [add_job, hb]⟩
  · intro hc
    simp [add_job, build_trigger, hc]
  · intro hi
    have hc : s.schedType ≠ "cron" := by rw [hi]; decide
    simp [add_job, build_trigger, hi, hc]

/-- Witness for C9 at the unsupported kind "weekly". -/
theorem C9_unsupported_trigger_is_hard_error_witness :
    add_job "Europe/Moscow" [] ⟨4, "weekly", "spec"⟩ =
      .error "Unsupported schedule type weekly" := by
  exact ((C9_unsupported_trigger_is_hard_error "Europe/Moscow" []
    ⟨4, "weekly", "spec"⟩).1 (by decide) (by decide)).2

/-- C3: a send classified as a permanent recipient failure
(TelegramForbiddenError / TelegramNotFound) marks that recipient's
delivery row failed with the error text, flips the recipient's
subscription flag to false, and the loop continues with the remaining
recipients of the batch; every subsequent resolve of `all_subscribed`
excludes that recipient. -/
theorem C3_permanent_failure_unsubscribes (now : Int) (send : Nat → SendResult)
    (evalWhere : String → User → Bool) (text : String)
    (schedule_id : Option Nat) (st : RunState) (u : User) (e : String)
    (hd : dedupSkip now st.db schedule_id u.id = false)
    (hs : send st.calls = .permFail e)
    (hfresh : ∀ d ∈ st.db.deliveries, d.id ≠ st.db.nextDeliveryId) :
    (processUser now send text schedule_id st u).db.deliveries =
        st.db.deliveries ++
          [⟨st.db.nextDeliveryId, schedule_id, u.id, .failed, some e, some now⟩] ∧
    (processUser now send text schedule_id st u).events =
        st.events ++
          [.enqueue st.db.nextDeliveryId schedule_id u.id .queued,
           .sendAttempt u.tg_id (render_text text u),
           .updateDelivery st.db.nextDeliveryId .failed (some e),
           .setSubscription u.tg_id false] ∧
    (processUser now send text schedule_id st u).queued = st.queued + 1 ∧
    (processUser now send text schedule_id st u).sent = st.sent ∧
    (processUser now send text schedule_id st u).failed = st.failed + 1 ∧
    (∀ v ∈ (processUser now send text schedule_id st u).db.users,
      v.tg_id = u.tg_id → v.is_subscribed = false) ∧
    (list_users_for_segment now evalWhere
        (processUser now send text schedule_id st u).db.users
        ⟨some "all_subscribed", none⟩ =
      .ok ((processUser now send text schedule_id st u).db.users.filter
        fun v => v.is_subscribed)) ∧
    (∀ v ∈ (processUser now send text schedule_id st u).db.users.filter
        (fun v => v.is_subscribed), v.tg_id ≠ u.tg_id) ∧
    (∀ rest : List User, processUsers now send text schedule_id st (u :: rest) =
      processUsers now send text schedule_id
        (processUser now send text schedule_id st u) rest) := by
  have husers : (processUser now send text schedule_id st u).db.users =
      st.db.users.map fun v =>
        if v.tg_id == u.tg_id then
          { v with is_subscribed := false, last_activity_at := some now }
        else v := by
    simp [processUser, hd, hs, update_subscription, update_delivery, enqueue_delivery]
  have hsub : ∀ v ∈ (processUser now send text schedule_id st u).db.users,
      v.tg_id = u.tg_id → v.is_subscribed = false := by
    rw [husers]
    rintro v hv htg
    obtain ⟨w, hw, rfl⟩ := List.mem_map.mp hv
    by_cases hwt : w.tg_id == u.tg_id
    · simp [hwt]
    · simp only [hwt, if_neg] at htg ⊢
      simp at hwt
      exact absurd htg hwt
  refine ⟨?_, ?_, ?_, ?_, ?_, hsub, ?_, ?_, ?_⟩
  · have hdel := update_delivery_enqueue now st.db schedule_id u.id .failed (some e) hfresh
    simp [processUser, hd, hs, update_subscription]
    simpa using hdel
  · simp [processUser, hd, hs]
  · simp [processUser, hd, hs]
  · simp [processUser, hd, hs]
  · simp [processUser, hd, hs]
  · simp [list_users_for_segment]
  · intro v hv
    rw [List.mem_filter] at hv
    intro htg
    have := hsub v hv.1 htg
    rw [this] at hv
    simp at hv
  · intro rest
    simp [processUsers]

/-- Witness for C3: one recipient blocked the bot; the delivery fails, the
subscription flips, and a later `all_subscribed` resolve excludes them. -/
theorem C3_permanent_failure_unsubscribes_witness :
    (processUser 100 (fun _ => .permFail "Forbidden: bot was blocked by the user")
        "hi" none ⟨⟨[⟨1, 11, none, none, true, false, none⟩], [], 1⟩, 0, [], 0, 0, 0⟩
        ⟨1, 11, none, none, true, false, none⟩).db.deliveries =
      [⟨1, none, 1, .failed, some "Forbidden: bot was blocked by the user", some 100⟩] ∧
    (∀ v ∈ (processUser 100 (fun _ => .permFail "Forbidden: bot was blocked by the user")
        "hi" none ⟨⟨[⟨1, 11, none, none, true, false, none⟩], [], 1⟩, 0, [], 0, 0, 0⟩
        ⟨1, 11, none, none, true, false, none⟩).db.users.filter
          (fun v => v.is_subscribed), v.tg_id ≠ 11) := by
  have h := C3_permanent_failure_unsubscribes 100
    (fun _ => .permFail "Forbidden: bot was blocked by the user")
    (fun _ _ => false) "hi" none
    ⟨⟨[⟨1, 11, none, none, true, false, none⟩], [], 1⟩, 0, [], 0, 0, 0⟩
    ⟨1, 11, none, none, true, false, none⟩
    "Forbidden: bot was blocked by the user" rfl rfl (by simp)
  exact ⟨by rw [h.1]; rfl, h.2.2.2.2.2.2.2.1⟩

/-- C1: when the transport rate-limits every attempt (the initial send and
the 3 retries of `_retry_delivery`), the executor sleeps for each
signalled number of seconds, makes exactly 4 transport calls (1 initial +
3 retries, the retry budget), creates exactly one delivery row for the
recipient, reuses it across the retries, and leaves it failed with error
"Retry limit exceeded". -/
theorem C1_rate_limit_exhaustion (now : Int) (send : Nat → SendResult)
    (text : String) (schedule_id : Option Nat) (st : RunState) (u : User)
    (s0 s1 s2 s3 : Nat)
    (hd : dedupSkip now st.db schedule_id u.id = false)
    (hfresh : ∀ d ∈ st.db.deliveries, d.id ≠ st.db.nextDeliveryId)
    (h0 : send st.calls = .retryAfter s0)
    (h1 : send (st.calls + 1) = .retryAfter s1)
    (h2 : send (st.calls + 2) = .retryAfter s2)
    (h3 : send (st.calls + 3) = .retryAfter s3) :
    (processUser now send text schedule_id st u).events =
        st.events ++
          [.enqueue st.db.nextDeliveryId schedule_id u.id .queued,
           .sendAttempt u.tg_id (render_text text u), .sleep s0,
           .sendAttempt u.tg_id (render_text text u), .sleep s1,
           .sendAttempt u.tg_id (render_text text u), .sleep s2,
           .sendAttempt u.tg_id (render_text text u), .sleep s3,
           .updateDelivery st.db.nextDeliveryId .failed (some "Retry limit exceeded")] ∧
    (processUser now send text schedule_id st u).db.deliveries =
        st.db.deliveries ++
          [⟨st.db.nextDeliveryId, schedule_id, u.id, .failed,
            some "Retry limit exceeded", some now⟩] ∧
    (processUser now send text schedule_id st u).db.users = st.db.users ∧
    (processUser now send text schedule_id st u).calls = st.calls + 4 ∧
    (processUser now send text schedule_id st u).queued = st.queued + 1 ∧
    (processUser now send text schedule_id st u).sent = st.sent ∧
    (processUser now send text schedule_id st u).failed = st.failed + 1 := by
  have hdel := update_delivery_enqueue now st.db schedule_id u.id .failed
    (some "Retry limit exceeded") hfresh
  refine ⟨?_, ?_, ?_, ?_, ?_, ?_, ?_⟩ <;>
    simp [processUser, hd, h0, retryLoop, h1, h2, h3, update_delivery,
      enqueue_delivery] <;>
    simpa [update_delivery, enqueue_delivery] using hdel

/-- Witness for C1: four flood waits of 5, 6, 7 and 8 seconds exhaust the
retry budget and leave one failed delivery row. -/
theorem C1_rate_limit_exhaustion_witness :
    (processUser 200 (fun k => .retryAfter (5 + k)) "hi" (some 9)
        ⟨⟨[⟨1, 11, none, none, true, false, none⟩], [], 1⟩, 0, [], 0, 0, 0⟩
        ⟨1, 11, none, none, true, false, none⟩).events =
      [.enqueue 1 (some 9) 1 .queued, .sendAttempt 11 "hi", .sleep 5,
       .sendAttempt 11 "hi", .sleep 6, .sendAttempt 11 "hi", .sleep 7,
       .sendAttempt 11 "hi", .sleep 8,
       .updateDelivery 1 .failed (some "Retry limit exceeded")] ∧
    (processUser 200 (fun k => .retryAfter (5 + k)) "hi" (some 9)
        ⟨⟨[⟨1, 11, none, none, true, false, none⟩], [], 1⟩, 0, [], 0, 0, 0⟩
        ⟨1, 11, none, none, true, false, none⟩).db.deliveries =
      [⟨1, some 9, 1, .failed, some "Retry limit exceeded", some 200⟩] := by
  have h := C1_rate_limit_exhaustion 200 (fun k => .retryAfter (5 + k)) "hi"
    (some 9) ⟨⟨[⟨1, 11, none, none, true, false, none⟩], [], 1⟩, 0, [], 0, 0, 0⟩
    ⟨1, 11, none, none, true, false, none⟩ 5 6 7 8 rfl (by simp) rfl rfl rfl rfl
  refine ⟨?_, ?_⟩
  · rw [h.1]; rfl
  · rw [h.2.1]; rfl

/-- Five subscribed recipients for the C6 scenario. -/
def c6users : List User :=
  [⟨1, 11, none, none, true, false, none⟩,
   ⟨2, 12, none, none, true, false, none⟩,
   ⟨3, 13, none, none, true, false, none⟩,
   ⟨4, 14, none, none, true, false, none⟩,
   ⟨5, 15, none, none, true, false, none⟩]

/-- C6: with 5 subscribed recipients, batch size 2 and no prior
deliveries, the `all_subscribed` run partitions the recipients into 3
batches of sizes 2, 2, 1 in resolver order; it returns queued=5, and with
every send succeeding, sent=5 and failed=0, and exactly 5 delivery rows
exist afterwards, all in status `sent`. -/
theorem C6_five_recipients_batches :
    list_users_for_segment 1000 (fun _ _ => false) c6users
        ⟨some "all_subscribed", none⟩ = .ok c6users ∧
    chunked c6users 2 =
      [[⟨1, 11, none, none, true, false, none⟩, ⟨2, 12, none, none, true, false, none⟩],
       [⟨3, 13, none, none, true, false, none⟩, ⟨4, 14, none, none, true, false, none⟩],
       [⟨5, 15, none, none, true, false, none⟩]] ∧
    (chunked c6users 2).map List.length = [2, 2, 1] ∧
    ∃ st : RunState,
      broadcast 1000 (fun _ => .ok) (fun _ _ => false) 2 ⟨c6users, [], 1⟩
          "hello" ⟨some "all_subscribed", none⟩ none = .ok st ∧
      st.queued = 5 ∧ st.sent = 5 ∧ st.failed = 0 ∧
      st.db.deliveries.length = 5 ∧
      (st.db.deliveries.all fun d => d.status == .sent) = true := by
  refine ⟨by rfl, by rfl, by rfl, _, rfl, by rfl, by rfl, by rfl, by rfl, by rfl⟩

/-- Database state for the C4 counterexample: one subscribed user (row id
1, tg 21) and one delivery for schedule id 0 already sent at the current
time, i.e. well inside the 24-hour window. -/
def c4db : DBState :=
  ⟨[⟨1, 21, none, none, true, false, none⟩],
   [⟨7, some 0, 1, .sent, none, some 1000⟩], 8⟩

/-- C4 counterexample: the run is given the non-null schedule id 0 and the
recipient has a recent delivery for that schedule, yet the code does not
skip them — `if schedule_id and ...` treats the integer 0 as falsy, so the
dedup check is bypassed: a new delivery row is created and queued counts
1, where the claim requires the recipient to be skipped and queued to be
0. -/
theorem C4_counterexample_schedule_id_zero :
    has_recent_delivery 1000 c4db.deliveries 0 1 = true ∧
    broadcast 1000 (fun _ => .ok) (fun _ _ => false) 2 c4db "hi"
        ⟨some "all_subscribed", none⟩ (some 0) =
      .ok ⟨⟨[⟨1, 21, none, none, true, false, some 1000⟩],
            [⟨7, some 0, 1, .sent, none, some 1000⟩,
             ⟨8, some 0, 1, .sent, none, some 1000⟩], 9⟩,
           1,
           [.enqueue 8 (some 0) 1 .queued, .sendAttempt 21 "hi",
            .updateDelivery 8 .sent none, .touchActivity 21, .pause],
           1, 1, 0⟩ := by
  exact ⟨by decide, by rfl⟩

/-- C4 amended: for every run whose schedule id is non-null and nonzero
(Python truthiness makes the code treat a schedule id of 0 like a null
one), a recipient with a recent delivery for that schedule inside the
24-hour window is skipped entirely — the state, trace and counters are
untouched, so no delivery row is enqueued, no send is attempted and the
queued count excludes them — while a recipient without such a recent
delivery is processed normally, starting with a fresh queued delivery
row. -/
theorem C4_dedup_skips_recent (now : Int) (send : Nat → SendResult)
    (text : String) (st : RunState) (u : User) (n : Nat) (hn : n ≠ 0) :
    (has_recent_delivery now st.db.deliveries n u.id = true →
      processUser now send text (some n) st u = st) ∧
    (has_recent_delivery now st.db.deliveries n u.id = false →
      (processUser now send text (some n) st u).queued = st.queued + 1 ∧
      ∃ tail : List Event, (processUser now send text (some n) st u).events =
        st.events ++ (.enqueue st.db.nextDeliveryId (some n) u.id .queued :: tail)) := by
  constructor
  · intro hrd
    have hskip : dedupSkip now st.db (some n) u.id = true := by
      simp [dedupSkip, hrd, hn]
    simp [processUser, hskip]
  · intro hrd
    have hskip : dedupSkip now st.db (some n) u.id = false := by
      simp [dedupSkip, hrd]
    cases hs : send st.calls with
    | ok =>
        exact ⟨by simp [processUser, hskip, hs],
          [.sendAttempt u.tg_id (render_text text u),
           .updateDelivery st.db.nextDeliveryId .sent none, .touchActivity u.tg_id],
          by simp [processUser, hskip, hs]⟩
    | retryAfter s =>
        exact ⟨by simp [processUser, hskip, hs],
          .sendAttempt u.tg_id (render_text text u) :: .sleep s ::
            (retryLoop now send u (render_text text u) st.db.nextDeliveryId 3
              (st.calls + 1) (enqueue_delivery st.db (some n) u.id)).events,
          by simp [processUser, hskip, hs]⟩
    | permFail e =>
        exact ⟨by simp [processUser, hskip, hs],
          [.sendAttempt u.tg_id (render_text text u),
           .updateDelivery st.db.nextDeliveryId .failed (some e),
           .setSubscription u.tg_id false],
          by simp [processUser, hskip, hs]⟩
    | otherFail e =>
        exact ⟨by simp [processUser, hskip, hs],
          [.sendAttempt u.tg_id (render_text text u),
           .updateDelivery st.db.nextDeliveryId .failed (some e)],
          by simp [processUser, hskip, hs]⟩

/-- Witness for the amended C4: with schedule id 3 the recipient already
delivered to within the window is skipped, leaving the run state
untouched. -/
theorem C4_dedup_skips_recent_witness :
    processUser 1000 (fun _ => .ok) "hi" (some 3)
        ⟨⟨[⟨1, 21, none, none, true, false, none⟩],
          [⟨7, some 3, 1, .sent, none, some 1000⟩], 8⟩, 0, [], 0, 0, 0⟩
        ⟨1, 21, none, none, true, false, none⟩ =
      ⟨⟨[⟨1, 21, none, none, true, false, none⟩],
        [⟨7, some 3, 1, .sent, none, some 1000⟩], 8⟩, 0, [], 0, 0, 0⟩ := by
  exact (C4_dedup_skips_recent 1000 (fun _ => .ok) "hi"
    ⟨⟨[⟨1, 21, none, none, true, false, none⟩],
      [⟨7, some 3, 1, .sent, none, some 1000⟩], 8⟩, 0, [], 0, 0, 0⟩
    ⟨1, 21, none, none, true, false, none⟩ 3 (by decide)).1 (by decide)

/-- Every run of the retry helper, whatever the transport outcomes, emits
no delivery insertion, emits exactly one delivery UPDATE — for the given
delivery id and a terminal status — and its database effect on the
deliveries table is exactly that single UPDATE. -/
theorem retryLoop_single_terminal_update (now : Int) (send : Nat → SendResult)
    (u : User) (text : String) (delivery_id : Nat) :
    ∀ fuel calls db,
      (retryLoop now send u text delivery_id fuel calls db).events.filter isEnq = [] ∧
      ∃ stt err, (stt = DStatus.sent ∨ stt = DStatus.failed) ∧
        (retryLoop now send u text delivery_id fuel calls db).events.filter isUpd =
          [.updateDelivery delivery_id stt err] ∧
        (retryLoop now send u text delivery_id fuel calls db).db.deliveries =
          db.deliveries.map (updRow now delivery_id stt err) := by
  intro fuel
  induction fuel with
  | zero =>
      intro calls db
      exact ⟨rfl, .failed, some "Retry limit exceeded", Or.inr rfl, rfl, rfl⟩
  | succ fuel ih =>
      intro calls db
      cases hs : send calls with
      | ok =>
          refine ⟨?_, .sent, none, Or.inl rfl, ?_, ?_⟩ <;>
            simp [retryLoop, hs, isEnq, isUpd, touch_activity, update_delivery]
      | retryAfter s =>
          obtain ⟨henq, stt, err, hterm, hupd, hdb⟩ := ih (calls + 1) db
          refine ⟨?_, stt, err, hterm, ?_, ?_⟩
          · simp [retryLoop, hs, isEnq, henq]
          · simp [retryLoop, hs, isUpd, hupd]
          · simp [retryLoop, hs, hdb]
      | permFail e =>
          refine ⟨?_, .failed, some e, Or.inr rfl, ?_, ?_⟩ <;>
            simp [retryLoop, hs, isEnq, isUpd, update_subscription, update_delivery]
      | otherFail e =>
          refine ⟨?_, .failed, some e, Or.inr rfl, ?_, ?_⟩ <;>
            simp [retryLoop, hs, isEnq, isUpd, update_delivery]

/-- C7: every recipient that is processed (not skipped by dedup) first
gets a delivery row inserted in `queued` status — the insertion event
precedes every transport attempt for the recipient — the row transitions
exactly once to a terminal status (`sent` or `failed`, never back to
`queued`), and all retries reuse that same row: the remainder of the
recipient's trace contains no further insertion and exactly one UPDATE,
for that row id, and the deliveries table gains exactly that one row. -/
theorem C7_delivery_lifecycle (now : Int) (send : Nat → SendResult)
    (text : String) (schedule_id : Option Nat) (st : RunState) (u : User)
    (hd : dedupSkip now st.db schedule_id u.id = false)
    (hfresh : ∀ d ∈ st.db.deliveries, d.id ≠ st.db.nextDeliveryId) :
    ∃ (tail : List Event) (stt : DStatus) (err : Option String),
      (processUser now send text schedule_id st u).events =
        st.events ++
          (.enqueue st.db.nextDeliveryId schedule_id u.id .queued :: tail) ∧
      tail.filter isEnq = [] ∧
      (stt = DStatus.sent ∨ stt = DStatus.failed) ∧
      tail.filter isUpd = [.updateDelivery st.db.nextDeliveryId stt err] ∧
      (processUser now send text schedule_id st u).db.deliveries =
        st.db.deliveries ++
          [⟨st.db.nextDeliveryId, schedule_id, u.id, stt, err, some now⟩] := by
  cases hs : send st.calls with
  | ok =>
      refine ⟨[.sendAttempt u.tg_id (render_text text u),
        .updateDelivery st.db.nextDeliveryId .sent none,
        .touchActivity u.tg_id], .sent, none, ?_, ?_, Or.inl rfl, ?_, ?_⟩
      · simp [processUser, hd, hs]
      · simp [isEnq]
      · simp [isUpd]
      · have hdel := update_delivery_enqueue now st.db schedule_id u.id .sent none hfresh
        simp [processUser, hd, hs, touch_activity]
        simpa using hdel
  | retryAfter s =>
      obtain ⟨henq, stt, err, hterm, hupd, hdb⟩ :=
        retryLoop_single_terminal_update now send u (render_text text u)
          st.db.nextDeliveryId 3 (st.calls + 1)
          (enqueue_delivery st.db schedule_id u.id)
      refine ⟨.sendAttempt u.tg_id (render_text text u) :: .sleep s ::
        (retryLoop now send u (render_text text u) st.db.nextDeliveryId 3
          (st.calls + 1) (enqueue_delivery st.db schedule_id u.id)).events,
        stt, err, ?_, ?_, hterm, ?_, ?_⟩
      · simp [processUser, hd, hs]
      · simp [isEnq, henq]
      · simp [isUpd, hupd]
      · have hdel := update_delivery_enqueue now st.db schedule_id u.id stt err hfresh
        have hstep : (processUser now send text schedule_id st u).db.deliveries =
            (retryLoop now send u (render_text text u) st.db.nextDeliveryId 3
              (st.calls + 1) (enqueue_delivery st.db schedule_id u.id)).db.deliveries := by
          simp [processUser, hd, hs]
        rw [hstep, hdb]
        simpa [update_delivery] using hdel
  | permFail e =>
      refine ⟨[.sendAttempt u.tg_id (render_text text u),
        .updateDelivery st.db.nextDeliveryId .failed (some e),
        .setSubscription u.tg_id false], .failed, some e, ?_, ?_, Or.inr rfl, ?_, ?_⟩
      · simp [processUser, hd, hs]
      · simp [isEnq]
      · simp [isUpd]
      · have hdel := update_delivery_enqueue now st.db schedule_id u.id .failed (some e) hfresh
        simp [processUser, hd, hs, update_subscription]
        simpa using hdel
  | otherFail e =>
      refine ⟨[.sendAttempt u.tg_id (render_text text u),
        .updateDelivery st.db.nextDeliveryId .failed (some e)],
        .failed, some e, ?_, ?_, Or.inr rfl, ?_, ?_⟩
      · simp [processUser, hd, hs]
      · simp [isEnq]
      · simp [isUpd]
      · have hdel := update_delivery_enqueue now st.db schedule_id u.id .failed (some e) hfresh
        simp [processUser, hd, hs]
        simpa using hdel

/-- Witness for C7: a recipient whose first send is rate-limited and whose
retry succeeds still produces one queued insertion, one terminal UPDATE of
the same row, and one new delivery row. -/
theorem C7_delivery_lifecycle_witness :
    ∃ (tail : List Event) (stt : DStatus) (err : Option String),
      (processUser 300 (fun k => if k == 0 then .retryAfter 4 else .ok) "hi"
          (some 2) ⟨⟨[⟨1, 31, none, none, true, false, none⟩], [], 1⟩, 0, [], 0, 0, 0⟩
          ⟨1, 31, none, none, true, false, none⟩).events =
        [] ++ (.enqueue 1 (some 2) 1 .queued :: tail) ∧
      tail.filter isEnq = [] ∧
      (stt = DStatus.sent ∨ stt = DStatus.failed) ∧
      tail.filter isUpd = [.updateDelivery 1 stt err] ∧
      (processUser 300 (fun k => if k == 0 then .retryAfter 4 else .ok) "hi"
          (some 2) ⟨⟨[⟨1, 31, none, none, true, false, none⟩], [], 1⟩, 0, [], 0, 0, 0⟩
          ⟨1, 31, none, none, true, false, none⟩).db.deliveries =
        [] ++ [⟨1, some 2, 1, stt, err, some 300⟩] := by
  exact C7_delivery_lifecycle 300 (fun k => if k == 0 then .retryAfter 4 else .ok)
    "hi" (some 2) ⟨⟨[⟨1, 31, none, none, true, false, none⟩], [], 1⟩, 0, [], 0, 0, 0⟩
    ⟨1, 31, none, none, true, false, none⟩ (by decide) (by simp)

/-- C8: if rendering a template fails (e.g. an unknown placeholder name in
the template — the interpreter yields `none` exactly on KeyError or
ValueError), `_render_text` falls back to the raw, unrendered template
instead of failing the recipient; when rendering succeeds, the `username`
placeholder is replaced by the stored display name, or by the generated
per-id fallback "друг RouteX #<tg_id>" when the name is absent (or
falsy-empty), and the `key` placeholder by the stored key or the
placeholder dash "—". -/
theorem C8_render_fallback_and_placeholders (u : User) :
    (∀ template : String,
      pyFormat template.data [("username", usernameValue u), ("key", keyValue u)] = none →
      render_text template u = template) ∧
    render_text "{unknown}" u = "{unknown}" ∧
    render_text "{username}" u = usernameValue u ∧
    render_text "{key}" u = keyValue u ∧
    (u.username = none → usernameValue u = "друг RouteX #" ++ toString u.tg_id) ∧
    (∀ s, u.username = some s → s ≠ "" → usernameValue u = s) ∧
    (u.key = none → keyValue u = "—") ∧
    (∀ s, u.key = some s → s ≠ "" → keyValue u = s) := by
  refine ⟨?_, ?_, ?_, ?_, ?_, ?_, ?_, ?_⟩
  · intro template h
    simp [render_text, h]
  · rfl
  · show String.mk _ = _
    simp [pyFormatGo]
  · show String.mk _ = _
    simp [pyFormatGo]
  · intro h
    simp [usernameValue, h]
  · intro s h hne
    simp [usernameValue, h, hne]
  · intro h
    simp [keyValue, h]
  · intro s h hne
    simp [keyValue, h, hne]

/-- Witness for C8 at a user with no stored name or key: an unknown
placeholder leaves the template raw, and the known placeholders render
with the generated fallbacks. -/
theorem C8_render_fallback_and_placeholders_witness :
    render_text "{unknown}" ⟨2, 12, none, none, true, false, none⟩ = "{unknown}" ∧
    render_text "{username}" ⟨2, 12, none, none, true, false, none⟩ =
      usernameValue ⟨2, 12, none, none, true, false, none⟩ ∧
    usernameValue ⟨2, 12, none, none, true, false, none⟩ = "друг RouteX #12" ∧
    keyValue ⟨2, 12, none, none, true, false, none⟩ = "—" := by
  have h := C8_render_fallback_and_placeholders ⟨2, 12, none, none, true, false, none⟩
  exact ⟨h.1 "{unknown}" (by rfl), h.2.2.1,
    by rw [h.2.2.2.2.1 rfl]; rfl, h.2.2.2.2.2.2.1 rfl⟩

end Routex
